import Mathlib

/-!
Verification development for the mailvelope key-import and editor controllers
(`src/controller/import.controller.js`).

The two controllers are shallowly embedded as pure Lean functions.  Calls into
external modules (openpgp, `modules/key`, `modules/keyring`, `modules/mime`,
`modules/pgpModel`, `lib/util`) are not part of the sources under verification;
their results are passed to the embedded functions as explicit inputs, and the
control flow of the controllers themselves is translated line by line.  Side
effects (events emitted on ports, promise settlement, key-store imports) are
made explicit in the result types.
-/

/-- Primary-key verification status, mirroring the openpgp `enums.keyStatus`
values used by `verifyPrimaryKey`. -/
inductive KeyStatus
  | invalid
  | expired
  | revoked
  | valid
  | noSelfCert
deriving DecidableEq, Repr

/-- The observable aspects of an OpenPGP key used by `ImportController.updateKey`
(import.controller.js lines 127-151): the result of `verifyPrimaryKey()` and the
value of `getLastModifiedDate(key).valueOf()`.  A value of this type stands for
a concrete key object; for the clone on line 130-131 it stands for the clone
after `update(newKey)` has merged the candidate material into it. -/
structure PgpKey where
  status : KeyStatus
  lastModified : Int
deriving DecidableEq, Repr

/-- Result of `keyring.importKeys([...])` for a single key, as checked by the
callers via `importResult.type === 'error'`. -/
inductive StoreImportResult
  | ok
  | error (message : String)
deriving DecidableEq, Repr

/-- Explicit record of everything `ImportController.updateKey` does:
whether it opens the confirmation popup (line 138), the value of the
`this.invalidated` flag it leaves behind (line 136), how many times it calls
`keyring.importKeys` (line 144), its return value (line 150) and the message of
a thrown error (line 146), `none` when it does not return / throw. -/
structure UpdateKeyResult where
  opensPopup : Bool
  invalidated : Bool
  storeImports : Nat
  retval : Option String
  threw : Option String
deriving DecidableEq, Repr

/-- Shallow embedding of `ImportController.updateKey` (lines 127-151).
`stockKey` is the key already in the keyring, `mergedClone` is the clone of the
stock key after `update(newKey)` (lines 130-131), so
`statusBefore = stockKey.status`, `statusAfter = mergedClone.status`, and the
two `getLastModifiedDate` values are the `lastModified` fields.  `importResult`
is the outcome of the `keyring.importKeys` call on line 144, only consulted on
the silent-update path. -/
def updateKey (stockKey mergedClone : PgpKey) (importResult : StoreImportResult) :
    UpdateKeyResult :=
  let statusBefore := stockKey.status
  let statusAfter := mergedClone.status
  if statusBefore ≠ statusAfter then
    -- key validity changes -> user confirmation required (lines 133-139)
    { opensPopup := true
      invalidated := statusAfter ≠ KeyStatus.valid
      storeImports := 0
      retval := none
      threw := none }
  else if stockKey.lastModified ≠ mergedClone.lastModified then
    -- update is non-critical, no user confirmation required (lines 140-148)
    match importResult with
    | StoreImportResult.error m =>
        { opensPopup := false, invalidated := false, storeImports := 1
          retval := none, threw := some m }
    | StoreImportResult.ok =>
        { opensPopup := false, invalidated := false, storeImports := 1
          retval := some "UPDATED", threw := none }
  else
    -- even if key does not change, we still reply with status UPDATED (line 150)
    { opensPopup := false, invalidated := false, storeImports := 0
      retval := some "UPDATED", threw := none }

/-- The mutable controller state consulted by `onImportOk` / `handleCancel`:
whether the import popup is open (`this.importPopup`), and the
`this.importError` and `this.invalidated` flags. -/
structure ImportCtrlState where
  popupOpen : Bool
  importError : Bool
  invalidated : Bool
deriving DecidableEq, Repr

/-- Settlement of the pending `this.popupPromise` continuation. -/
inductive PromiseSettle
  | unsettled
  | resolved (value : String)
  | rejectedWith (code : String)
deriving DecidableEq, Repr

/-- One-way events emitted towards the dialog / editor / container ports. -/
inductive Event
  | importErrorMsg (message : String)
  | errorMessage (message : String) (code : Option String)
  | contErrorMessage (message : String) (code : Option String)
  | getPlaintext (action : String)
  | setText (text : String)
  | decryptEnd
  | decryptFailed
  | encryptEnd
  | encryptFailed
  | encryptInProgress
  | hidePwdDialog
  | encryptedMessage
deriving DecidableEq, Repr

/-- Combined outcome of an `ImportController` event handler: updated controller
state, settlement of the pending popup promise, events emitted, and the number
of `keyring.importKeys` calls it made. -/
structure HandlerResult where
  state : ImportCtrlState
  settle : PromiseSettle
  events : List Event
  storeImports : Nat
deriving DecidableEq, Repr

/-- Shallow embedding of `ImportController.onImportOk` (lines 47-56): the user
confirmed the import dialog; the armored key is handed to
`keyring.importKeys`.  On an error result the handler emits `import-error` to
the dialog and sets `this.importError`; only on success does it close the popup
and resolve the pending promise with IMPORTED. -/
def onImportOk (s : ImportCtrlState) (importResult : StoreImportResult) :
    HandlerResult :=
  match importResult with
  | StoreImportResult.error m =>
      { state := { s with importError := true }
        settle := PromiseSettle.unsettled
        events := [Event.importErrorMsg m]
        storeImports := 1 }
  | StoreImportResult.ok =>
      { state := { s with popupOpen := false }
        settle := PromiseSettle.resolved "IMPORTED"
        events := []
        storeImports := 1 }

/-- Shallow embedding of `ImportController.handleCancel` (lines 58-67): close
the popup, then settle the pending popup promise according to the
`invalidated` / `importError` flags. -/
def handleCancel (s : ImportCtrlState) : HandlerResult :=
  let s' := { s with popupOpen := false }
  if s.invalidated then
    { state := s', settle := PromiseSettle.resolved "INVALIDATED"
      events := [], storeImports := 0 }
  else if s.importError then
    { state := s', settle := PromiseSettle.rejectedWith "IMPORT_ERROR"
      events := [], storeImports := 0 }
  else
    { state := s', settle := PromiseSettle.resolved "REJECTED"
      events := [], storeImports := 0 }

/-- Key kind as reported by `mapKeys` in `this.keyDetails.type`. -/
inductive KeyKind
  | publicKey
  | privateKey
deriving DecidableEq, Repr

/-- Results of the external calls made by `ImportController.importKey`
(lines 76-125): the parse error list of `openpgp.key.readArmored` (line 84),
whether `sanitizeKey` returned a key (line 91-92), the `verifyPrimaryKey`
status of the sanitized key (line 92), the key kind from `mapKeys` (line 98),
the stock key found in the keyring for the fingerprint (line 115), the clone of
the stock key merged with the candidate (for `updateKey`), and the store import
result consumed by `updateKey` on its silent path. -/
structure ImportKeyEnv where
  parseErr : Option String
  sanitizeOk : Bool
  primaryStatus : KeyStatus
  keyKind : KeyKind
  stockKey : Option PgpKey
  mergedClone : PgpKey
  storeImport : StoreImportResult
deriving DecidableEq, Repr

/-- Control-flow outcome of `ImportController.importKey`: a thrown `MvError`
(message and code, line 123), continuation into the `updateKey` path
(line 118), or opening the fresh-import confirmation popup (line 120). -/
inductive ImportKeyOutcome
  | threw (message : String) (code : String)
  | updateFlow (r : UpdateKeyResult)
  | popupFlow
deriving DecidableEq, Repr

/-- Shallow embedding of `ImportController.importKey` (lines 76-125) together
with the number of `keyring.importKeys` calls made anywhere inside it.  All
failures inside the `try` block — including a rejection coming out of
`updateKey` — are rethrown as `MvError(err.message, 'IMPORT_ERROR')`
(line 123). -/
def importKey (env : ImportKeyEnv) : ImportKeyOutcome × Nat :=
  match env.parseErr with
  | some m => (ImportKeyOutcome.threw m "IMPORT_ERROR", 0)
  | none =>
    if ¬ env.sanitizeOk ∨ env.primaryStatus = KeyStatus.invalid then
      -- line 92-94
      (ImportKeyOutcome.threw "Key is invalid." "IMPORT_ERROR", 0)
    else if env.keyKind = KeyKind.privateKey then
      -- lines 98-100
      (ImportKeyOutcome.threw "Import of private keys not allowed." "IMPORT_ERROR", 0)
    else
      match env.stockKey with
      | some stock =>
          let r := updateKey stock env.mergedClone env.storeImport
          match r.threw with
          | some m => (ImportKeyOutcome.threw m "IMPORT_ERROR", r.storeImports)
          | none => (ImportKeyOutcome.updateFlow r, r.storeImports)
      | none => (ImportKeyOutcome.popupFlow, 0)

/-- Modelled from the spec: `sortAndDeDup` lives in `lib/util`, which is not
part of this repository snapshot; the spec requires the final fingerprint list
to be "deduplicated and stably ordered".  It is modelled as removing duplicate
fingerprints and sorting them lexicographically, which is deterministic. -/
def sortAndDeDup (l : List String) : List String :=
  List.insertionSort (fun a b => a ≤ b) l.dedup

/-- Shallow embedding of `EditorController.getPublicKeyFprs` (lines 812-829):
prefer the fingerprint buffer `this.keyFprBuffer`, else take the fingerprints
of the supplied key objects; when `prefs.general.auto_add_primary` is set,
append the keyring default key fingerprint if there is one; deduplicate. -/
def getPublicKeyFprs (keyFprBuffer : Option (List String)) (keys : List String)
    (autoAddPrimary : Bool) (defaultKeyFpr : Option String) : List String :=
  let keyFprs :=
    match keyFprBuffer with
    | some buffer => buffer
    | none => keys
  let keyFprs :=
    if autoAddPrimary then
      match defaultKeyFpr with
      | some fpr => keyFprs ++ [fpr]
      | none => keyFprs
    else keyFprs
  sortAndDeDup keyFprs

/-- Entry of the address-to-fingerprints map produced by
`mapAddressKeyMapToFpr` (line 379): `false` when the address resolved to no
keys even after the remote lookup, else the list of key fingerprints. -/
inductive FprEntry
  | noKey
  | fprs (l : List String)
deriving DecidableEq, Repr

/-- Result of `EditorController.onEditorContainerEncrypt`: emitted events, the
fingerprint buffer stored in `this.keyFprBuffer` (line 392), and whether the
handler proceeded to request the plaintext from the editor (line 395). -/
structure ContainerEncryptResult where
  events : List Event
  keyFprBuffer : Option (List String)
  proceeded : Bool
deriving DecidableEq, Repr

/-- JS `keyFprMap[recipient]` on line 390, reached only when no entry is
`false`. -/
def lookupFprs (m : List (String × FprEntry)) (recipient : String) : List String :=
  match m.lookup recipient with
  | some (FprEntry.fprs l) => l
  | _ => []

/-- Shallow embedding of `EditorController.onEditorContainerEncrypt`
(lines 374-396).  `keyFprMap` is the address-to-fingerprints map after
`getKeyByAddress`, `lookupMissingKeys` (remote lookups for addresses without a
local key) and `mapAddressKeyMapToFpr` have run; those three are external
collaborators, so the post-lookup map is an input.  If any address still has
no key, emit `NO_KEY_FOR_RECIPIENT` on the container port and stop; otherwise
buffer the deduplicated fingerprints and ask the editor for the plaintext. -/
def onEditorContainerEncrypt (keyFprMap : List (String × FprEntry))
    (recipients : List String) : ContainerEncryptResult :=
  if ∃ p ∈ keyFprMap, p.2 = FprEntry.noKey then
    { events := [Event.contErrorMessage "No valid encryption key for recipient address"
        (some "NO_KEY_FOR_RECIPIENT")]
      keyFprBuffer := none
      proceeded := false }
  else
    let keyFprs := recipients.foldl (fun acc r => acc ++ lookupFprs keyFprMap r) []
    { events := [Event.getPlaintext "encrypt"]
      keyFprBuffer := some (sortAndDeDup keyFprs)
      proceeded := true }

/-- The `MvError` shape from `lib/util`: a message plus an optional stable
machine-readable code. -/
structure MvError where
  message : String
  code : Option String
deriving DecidableEq, Repr

/-- Possible behaviours of the external `buildMail` call (line 689): a built
payload, a `null` return, or a thrown error (the controller has a `catch`
branch for the latter on lines 690-694). -/
inductive BuildResult
  | ok (data : String)
  | retNull
  | threw (e : MvError)
deriving DecidableEq, Repr

/-- The JS value held by the local variable `data` in `signAndEncrypt`
(line 681 declares it without initialiser, so it starts as `undefined`). -/
inductive DataVal
  | str (s : String)
  | nullv
  | undef
deriving DecidableEq, Repr

/-- Controller-instance state consulted by the editor encrypt path. -/
structure EditorEnv where
  pgpMIME : Bool
  integration : Bool
  editorCont : Bool
  popup : Bool
  keyFprBuffer : Option (List String)
  autoAddPrimary : Bool
  defaultKeyFpr : Option String
deriving DecidableEq, Repr

/-- The fields of the editor-supplied `options` object used by
`signAndEncrypt` for the encrypt action. -/
structure EncryptOptions where
  signMsg : Bool
  signKeyFpr : Option String
  keys : List String
  attachments : Nat
deriving DecidableEq, Repr

/-- Decidable equality for `Except`, used by the result records below. -/
instance exceptDecEq {ε α : Type} [DecidableEq ε] [DecidableEq α] :
    DecidableEq (Except ε α) := fun x y =>
  match x, y with
  | Except.ok a, Except.ok b =>
      if h : a = b then isTrue (by rw [h])
      else isFalse (by intro hc; cases hc; exact h rfl)
  | Except.ok _, Except.error _ => isFalse (by intro hc; cases hc)
  | Except.error _, Except.ok _ => isFalse (by intro hc; cases hc)
  | Except.error e, Except.error f =>
      if h : e = f then isTrue (by rw [h])
      else isFalse (by intro hc; cases hc; exact h rfl)

/-- Outcomes of the external calls performed during `signAndEncrypt`:
`buildMail`, `model.encryptMessage` (whose rejection also carries a
passphrase-dialog cancellation, since the unlock callback runs inside it) and
the aggregated `encryptFiles` step. -/
structure ExternalResults where
  buildResult : BuildResult
  encryptResult : Except MvError String
  encryptFilesResult : Except MvError Unit
deriving DecidableEq, Repr

/-- Explicit record of a `signAndEncrypt` run: events emitted, how many
cryptographic-engine encrypt operations were invoked (`model.encryptMessage`
plus one `model.encryptFile` per attachment), the `data` argument passed to
`encryptMessage` if it was called, and the returned/rejected result. -/
structure SignAndEncryptResult where
  events : List Event
  engineEncryptCalls : Nat
  engineDataArg : Option DataVal
  engineKeyFprsArg : Option (List String)
  result : Except MvError String
deriving DecidableEq, Repr

/-- Shallow embedding of `EditorController.signAndEncrypt` (lines 659-722),
encrypt action.  Control flow from the source: choose the signing key
(explicit fingerprint, else keyring default, else throw NO_DEFAULT_KEY_FOUND,
lines 665-673); split out attachments as files only in the
integration-and-not-pgpMIME case (lines 685-687); `data = buildMail(options)`
in a `try` whose `catch` only notifies the container port (lines 688-694); the
`data === null` guard (lines 695-697) — note that it does not match the
`undefined` left behind by a throwing `buildMail`; then `encryptMessage`
(line 698) and, when files are present and not pgpMIME, `encryptFiles`
(lines 705-713). -/
def signAndEncrypt (env : EditorEnv) (opts : EncryptOptions)
    (ext : ExternalResults) : SignAndEncryptResult :=
  -- line 662: const keyFprs = await this.getPublicKeyFprs(options.keys)
  let keyFprs := getPublicKeyFprs env.keyFprBuffer opts.keys env.autoAddPrimary
    env.defaultKeyFpr
  if opts.signMsg && (opts.signKeyFpr <|> env.defaultKeyFpr).isNone then
    { events := []
      engineEncryptCalls := 0
      engineDataArg := none
      engineKeyFprsArg := none
      result := Except.error
        { message := "No private key found to sign this message."
          code := some "NO_DEFAULT_KEY_FOUND" } }
  else
    let files := if env.integration && !env.pgpMIME then opts.attachments else 0
    let step :=
      match ext.buildResult with
      | BuildResult.ok d => (DataVal.str d, ([] : List Event))
      | BuildResult.retNull => (DataVal.nullv, [])
      | BuildResult.threw e =>
          (DataVal.undef,
           if env.editorCont then [Event.contErrorMessage e.message e.code] else [])
    let data := step.1
    let buildEvents := step.2
    if data = DataVal.nullv then
      { events := buildEvents
        engineEncryptCalls := 0
        engineDataArg := none
        engineKeyFprsArg := none
        result := Except.error { message := "MIME building failed.", code := none } }
    else
      -- encryptMessage emits encrypt-in-progress before calling the engine (line 731)
      let evs := buildEvents ++ [Event.encryptInProgress]
      match ext.encryptResult with
      | Except.error e =>
          { events := evs, engineEncryptCalls := 1
            engineDataArg := some data, engineKeyFprsArg := some keyFprs
            result := Except.error e }
      | Except.ok armored =>
          if !env.pgpMIME && files > 0 then
            let evs := evs ++ [Event.encryptInProgress]
            match ext.encryptFilesResult with
            | Except.error e =>
                { events := evs, engineEncryptCalls := 1 + files
                  engineDataArg := some data, engineKeyFprsArg := some keyFprs
                  result := Except.error e }
            | Except.ok _ =>
                { events := evs, engineEncryptCalls := 1 + files
                  engineDataArg := some data, engineKeyFprsArg := some keyFprs
                  result := Except.ok armored }
          else
            { events := evs, engineEncryptCalls := 1
              engineDataArg := some data, engineKeyFprsArg := some keyFprs
              result := Except.ok armored }

/-- Shallow embedding of `EditorController.onEditorPlaintext` (lines 623-646),
given the outcome of its `signAndEncrypt` call.  Success: `encrypt-end`, close
the editor (popup case), transfer the armored message (container port event or
promise resolution, lines 785-793).  Failure: if an editor popup is open and
the error code is PWD_DIALOG_CANCEL, only hide the passphrase dialog
(lines 633-637); otherwise emit `error-message` on the editor port, also on
the container port when present, then `encrypt-failed` (lines 638-644). -/
def onEditorPlaintext (env : EditorEnv) (sae : SignAndEncryptResult) : List Event :=
  match sae.result with
  | Except.ok _ =>
      sae.events ++ [Event.encryptEnd] ++
        (if env.editorCont then [Event.encryptedMessage] else [])
  | Except.error e =>
      if env.popup && e.code == some "PWD_DIALOG_CANCEL" then
        sae.events ++ [Event.hidePwdDialog]
      else
        sae.events ++ [Event.errorMessage e.message e.code] ++
          (if env.editorCont then [Event.contErrorMessage e.message e.code] else []) ++
          [Event.encryptFailed]

/-- Events and engine-encrypt invocations of a whole container compose
session. -/
structure SessionTrace where
  events : List Event
  engineEncryptCalls : Nat
deriving DecidableEq, Repr

/-- A container compose session end to end: `onEditorContainerEncrypt` runs
first; only if it emitted `get-plaintext` does the editor answer with the
plaintext, which triggers `onEditorPlaintext` and its `signAndEncrypt` call.
`onEditorContainerEncrypt` sets `this.pgpMIME = true` (line 375) and stores
the fingerprint buffer (line 392) before the editor replies. -/
def containerEncryptSession (keyFprMap : List (String × FprEntry))
    (recipients : List String) (env : EditorEnv) (opts : EncryptOptions)
    (ext : ExternalResults) : SessionTrace :=
  let r := onEditorContainerEncrypt keyFprMap recipients
  if r.proceeded then
    let env' := { env with pgpMIME := true, keyFprBuffer := r.keyFprBuffer }
    let sae := signAndEncrypt env' opts ext
    { events := r.events ++ onEditorPlaintext env' sae
      engineEncryptCalls := sae.engineEncryptCalls }
  else
    { events := r.events, engineEncryptCalls := 0 }

/-- Kind of armored input handled by `decryptArmored` (lines 532, 541, 548):
a PGP MESSAGE block, a PGP SIGNED MESSAGE block, or clear text. -/
inductive ArmoredKind
  | pgpMessage
  | pgpSignedMessage
  | clearText
deriving DecidableEq, Repr

/-- A signature result as returned by the external decrypt/verify operations;
each carries at least a validity flag. -/
structure Sig where
  valid : Bool
deriving DecidableEq, Repr

/-- The draft self-signature condition of line 577:
`signatures && signatures.length === 1 && signatures[0].valid`
(the local `signatures` is initialised to `[]` on line 531, so it is never
null). -/
def exactlyOneValidSig (sigs : List Sig) : Bool :=
  match sigs with
  | [s] => s.valid
  | _ => false

/-- Shallow embedding of `EditorController.decryptArmored` (lines 521-586).
`extResult` is the outcome of the external `model.decryptMessage` /
`model.verifyMessage` call for the two PGP branches; `sanitized` is the
sanitised content used by the clear-text branch (line 550, where the external
sanitiser returns the data and no signatures).  When `options.armoredDraft` is
set and the decrypted content does not carry exactly one valid signature, the
handler throws (lines 576-580), which the surrounding catch turns into a
`decrypt-failed` event (lines 583-585); only otherwise does `parseMessage`
run, whose `onMessage` handler emits `set-text` (line 568), followed by
`decrypt-end` (line 582). -/
def decryptArmored (kind : ArmoredKind)
    (extResult : Except String (String × List Sig)) (sanitized : String)
    (armoredDraft : Bool) : List Event :=
  let step :=
    match kind with
    | ArmoredKind.pgpMessage => extResult
    | ArmoredKind.pgpSignedMessage => extResult
    | ArmoredKind.clearText => Except.ok (sanitized, ([] : List Sig))
  match step with
  | Except.error _ => [Event.decryptFailed]
  | Except.ok (data, sigs) =>
      if armoredDraft && !exactlyOneValidSig sigs then
        [Event.decryptFailed]
      else
        [Event.setText data, Event.decryptEnd]

/-! ## Helper lemmas -/

theorem mem_sortAndDeDup (l : List String) (x : String) :
    x ∈ sortAndDeDup l ↔ x ∈ l := by
  unfold sortAndDeDup
  rw [List.mem_insertionSort, List.mem_dedup]

theorem sorted_sortAndDeDup (l : List String) :
    (sortAndDeDup l).Sorted (fun a b => a ≤ b) :=
  List.sorted_insertionSort _ _

theorem nodup_sortAndDeDup (l : List String) : (sortAndDeDup l).Nodup :=
  ((List.perm_insertionSort _ _).nodup_iff).mpr (List.nodup_dedup l)

/-! ## Claim theorems -/

/-- C1: `updateKey` opens the confirmation popup iff the primary-key validity
status before the hypothetical merge differs from the status after it; it
performs a commit without confirmation (a `keyring.importKeys` call) iff the
validity is unchanged but the last-modified timestamp changes; and it returns
UPDATED having committed nothing iff neither changes. -/
theorem C1_updateKey_reconciliation (stockKey mergedClone : PgpKey)
    (importResult : StoreImportResult) :
    ((updateKey stockKey mergedClone importResult).opensPopup = true ↔
      stockKey.status ≠ mergedClone.status) ∧
    ((updateKey stockKey mergedClone importResult).storeImports = 1 ↔
      (stockKey.status = mergedClone.status ∧
        stockKey.lastModified ≠ mergedClone.lastModified)) ∧
    (((updateKey stockKey mergedClone importResult).storeImports = 0 ∧
      (updateKey stockKey mergedClone importResult).retval = some "UPDATED") ↔
      (stockKey.status = mergedClone.status ∧
        stockKey.lastModified = mergedClone.lastModified)) := by
  unfold updateKey
  by_cases h1 : stockKey.status = mergedClone.status
  · by_cases h2 : stockKey.lastModified = mergedClone.lastModified
    · simp [h1, h2]
    · cases importResult <;> simp [h1, h2]
  · simp [h1]

/-- C9: when the hypothetical merge changes neither the primary-key validity
status nor the last-modified timestamp, `updateKey` performs no key-store
mutation (no `importKeys` call) and still returns UPDATED, without opening the
confirmation popup. -/
theorem C9_updateKey_no_change_frame (stockKey mergedClone : PgpKey)
    (importResult : StoreImportResult)
    (hstatus : stockKey.status = mergedClone.status)
    (hlm : stockKey.lastModified = mergedClone.lastModified) :
    (updateKey stockKey mergedClone importResult).storeImports = 0 ∧
    (updateKey stockKey mergedClone importResult).retval = some "UPDATED" ∧
    (updateKey stockKey mergedClone importResult).opensPopup = false := by
  unfold updateKey
  simp [hstatus, hlm]

theorem C9_witness :
    (updateKey (PgpKey.mk KeyStatus.valid 100) (PgpKey.mk KeyStatus.valid 100)
      StoreImportResult.ok).storeImports = 0 ∧
    (updateKey (PgpKey.mk KeyStatus.valid 100) (PgpKey.mk KeyStatus.valid 100)
      StoreImportResult.ok).retval = some "UPDATED" ∧
    (updateKey (PgpKey.mk KeyStatus.valid 100) (PgpKey.mk KeyStatus.valid 100)
      StoreImportResult.ok).opensPopup = false :=
  C9_updateKey_no_change_frame _ _ _ rfl rfl

/-- C3: a confirmation-required reconciliation whose post-merge validity is not
valid flags the session invalidated and performs no store mutation while the
popup is pending; declining the confirmation dialog then resolves the flow
with outcome INVALIDATED, closes the popup, and again performs no store
mutation, so the keyring still holds the original stored key. -/
theorem C3_invalidated_decline (stockKey mergedClone : PgpKey)
    (importResult : StoreImportResult)
    (hchange : stockKey.status ≠ mergedClone.status)
    (hinvalid : mergedClone.status ≠ KeyStatus.valid) :
    (updateKey stockKey mergedClone importResult).opensPopup = true ∧
    (updateKey stockKey mergedClone importResult).invalidated = true ∧
    (updateKey stockKey mergedClone importResult).storeImports = 0 ∧
    (handleCancel
      { popupOpen := true, importError := false
        invalidated := (updateKey stockKey mergedClone importResult).invalidated }).settle =
      PromiseSettle.resolved "INVALIDATED" ∧
    (handleCancel
      { popupOpen := true, importError := false
        invalidated := (updateKey stockKey mergedClone importResult).invalidated }).state.popupOpen =
      false ∧
    (handleCancel
      { popupOpen := true, importError := false
        invalidated := (updateKey stockKey mergedClone importResult).invalidated }).storeImports =
      0 := by
  unfold updateKey handleCancel
  simp [hchange, hinvalid]

theorem C3_witness :
    (updateKey (PgpKey.mk KeyStatus.valid 100) (PgpKey.mk KeyStatus.revoked 200)
      StoreImportResult.ok).opensPopup = true ∧
    (updateKey (PgpKey.mk KeyStatus.valid 100) (PgpKey.mk KeyStatus.revoked 200)
      StoreImportResult.ok).invalidated = true ∧
    (updateKey (PgpKey.mk KeyStatus.valid 100) (PgpKey.mk KeyStatus.revoked 200)
      StoreImportResult.ok).storeImports = 0 ∧
    (handleCancel
      { popupOpen := true, importError := false
        invalidated := (updateKey (PgpKey.mk KeyStatus.valid 100)
          (PgpKey.mk KeyStatus.revoked 200) StoreImportResult.ok).invalidated }).settle =
      PromiseSettle.resolved "INVALIDATED" ∧
    (handleCancel
      { popupOpen := true, importError := false
        invalidated := (updateKey (PgpKey.mk KeyStatus.valid 100)
          (PgpKey.mk KeyStatus.revoked 200) StoreImportResult.ok).invalidated }).state.popupOpen =
      false ∧
    (handleCancel
      { popupOpen := true, importError := false
        invalidated := (updateKey (PgpKey.mk KeyStatus.valid 100)
          (PgpKey.mk KeyStatus.revoked 200) StoreImportResult.ok).invalidated }).storeImports =
      0 :=
  C3_invalidated_decline _ _ _ (by decide) (by decide)

/-- C10: a candidate whose parsed key details report a private key is rejected
by `importKey` with an IMPORT_ERROR carrying the message "Import of private
keys not allowed." and no `keyring.importKeys` call is made, so nothing enters
the key store on this path. -/
theorem C10_importKey_rejects_private (env : ImportKeyEnv)
    (hparse : env.parseErr = none) (hsan : env.sanitizeOk = true)
    (hstatus : env.primaryStatus ≠ KeyStatus.invalid)
    (hkind : env.keyKind = KeyKind.privateKey) :
    importKey env =
      (ImportKeyOutcome.threw "Import of private keys not allowed." "IMPORT_ERROR", 0) := by
  unfold importKey
  simp [hparse, hsan, hstatus, hkind]

theorem C10_witness :
    importKey
      { parseErr := none, sanitizeOk := true, primaryStatus := KeyStatus.valid
        keyKind := KeyKind.privateKey, stockKey := none
        mergedClone := PgpKey.mk KeyStatus.valid 0
        storeImport := StoreImportResult.ok } =
      (ImportKeyOutcome.threw "Import of private keys not allowed." "IMPORT_ERROR", 0) :=
  C10_importKey_rejects_private _ rfl rfl (by decide) rfl

/-- C7 counterexample: the claim says a validation failure during the import
step of a pending confirmation flow closes the popup and rejects the pending
continuation with IMPORT_ERROR, but `onImportOk` on a store-import error
leaves the popup open and the continuation unsettled. -/
theorem C7_counterexample :
    (onImportOk { popupOpen := true, importError := false, invalidated := false }
      (StoreImportResult.error "key material rejected")).state.popupOpen = true ∧
    (onImportOk { popupOpen := true, importError := false, invalidated := false }
      (StoreImportResult.error "key material rejected")).settle =
      PromiseSettle.unsettled := by
  exact ⟨rfl, rfl⟩

/-- C7 amended: a store-import failure during the confirmed import step emits
an import-error event to the open dialog, flags the session and leaves the
popup open and the continuation unsettled; the popup is closed and the pending
continuation rejected with code IMPORT_ERROR only when the user subsequently
cancels or closes the dialog, provided the session was not flagged
invalidated. -/
theorem C7_amended_import_error_flow (s : ImportCtrlState) (m : String)
    (hinv : s.invalidated = false) :
    (onImportOk s (StoreImportResult.error m)).state.importError = true ∧
    (onImportOk s (StoreImportResult.error m)).state.popupOpen = s.popupOpen ∧
    (onImportOk s (StoreImportResult.error m)).settle = PromiseSettle.unsettled ∧
    (onImportOk s (StoreImportResult.error m)).events = [Event.importErrorMsg m] ∧
    (handleCancel (onImportOk s (StoreImportResult.error m)).state).state.popupOpen =
      false ∧
    (handleCancel (onImportOk s (StoreImportResult.error m)).state).settle =
      PromiseSettle.rejectedWith "IMPORT_ERROR" := by
  unfold onImportOk handleCancel
  simp [hinv]

theorem C7_witness :
    (onImportOk { popupOpen := true, importError := false, invalidated := false }
      (StoreImportResult.error "bad key")).state.importError = true ∧
    (onImportOk { popupOpen := true, importError := false, invalidated := false }
      (StoreImportResult.error "bad key")).state.popupOpen =
      ({ popupOpen := true, importError := false, invalidated := false } : ImportCtrlState).popupOpen ∧
    (onImportOk { popupOpen := true, importError := false, invalidated := false }
      (StoreImportResult.error "bad key")).settle = PromiseSettle.unsettled ∧
    (onImportOk { popupOpen := true, importError := false, invalidated := false }
      (StoreImportResult.error "bad key")).events = [Event.importErrorMsg "bad key"] ∧
    (handleCancel (onImportOk { popupOpen := true, importError := false, invalidated := false }
      (StoreImportResult.error "bad key")).state).state.popupOpen = false ∧
    (handleCancel (onImportOk { popupOpen := true, importError := false, invalidated := false }
      (StoreImportResult.error "bad key")).state).settle =
      PromiseSettle.rejectedWith "IMPORT_ERROR" :=
  C7_amended_import_error_flow _ _ rfl

/-- C4: the final encryption fingerprint list is sorted and duplicate-free,
and its members are exactly the union of the fingerprint-buffer override (or,
absent an override, the resolved recipient key fingerprints) with the keyring
default key fingerprint exactly when the auto-add-primary preference is
enabled.  The function is pure, so two runs with the same inputs and
preferences produce the same list. -/
theorem C4_getPublicKeyFprs_spec (keyFprBuffer : Option (List String))
    (keys : List String) (autoAddPrimary : Bool) (defaultKeyFpr : Option String) :
    (getPublicKeyFprs keyFprBuffer keys autoAddPrimary defaultKeyFpr).Sorted
      (fun a b => a ≤ b) ∧
    (getPublicKeyFprs keyFprBuffer keys autoAddPrimary defaultKeyFpr).Nodup ∧
    ∀ x, x ∈ getPublicKeyFprs keyFprBuffer keys autoAddPrimary defaultKeyFpr ↔
      (x ∈ keyFprBuffer.getD keys ∨
        (autoAddPrimary = true ∧ defaultKeyFpr = some x)) := by
  refine ⟨sorted_sortAndDeDup _, nodup_sortAndDeDup _, fun x => ?_⟩
  unfold getPublicKeyFprs
  rw [mem_sortAndDeDup]
  cases keyFprBuffer <;> cases autoAddPrimary <;> cases defaultKeyFpr <;>
    simp [Option.getD, eq_comm]

/-- When some address still maps to no key after the lookup pass, the
container-encrypt handler emits only the NO_KEY_FOR_RECIPIENT error and does
not proceed. -/
theorem onEditorContainerEncrypt_noKey (keyFprMap : List (String × FprEntry))
    (recipients : List String) (h : ∃ p ∈ keyFprMap, p.2 = FprEntry.noKey) :
    onEditorContainerEncrypt keyFprMap recipients =
      { events := [Event.contErrorMessage "No valid encryption key for recipient address"
          (some "NO_KEY_FOR_RECIPIENT")]
        keyFprBuffer := none
        proceeded := false } := by
  unfold onEditorContainerEncrypt
  rw [if_pos h]

/-- C2: a container compose session in which some recipient address resolves
to an empty key set (no local key and the remote lookup yielded nothing)
emits NO_KEY_FOR_RECIPIENT on the container port as its only event, and the
cryptographic engine encrypt operation is never invoked in that session. -/
theorem C2_no_key_for_recipient (keyFprMap : List (String × FprEntry))
    (recipients : List String) (env : EditorEnv) (opts : EncryptOptions)
    (ext : ExternalResults)
    (h : ∃ p ∈ keyFprMap, p.2 = FprEntry.noKey) :
    (containerEncryptSession keyFprMap recipients env opts ext).events =
      [Event.contErrorMessage "No valid encryption key for recipient address"
        (some "NO_KEY_FOR_RECIPIENT")] ∧
    (containerEncryptSession keyFprMap recipients env opts ext).engineEncryptCalls =
      0 := by
  unfold containerEncryptSession
  rw [onEditorContainerEncrypt_noKey keyFprMap recipients h]
  simp

theorem C2_witness :
    (containerEncryptSession
      [("a@x.com", FprEntry.fprs ["F1"]), ("b@x.com", FprEntry.noKey)]
      ["a@x.com", "b@x.com"]
      { pgpMIME := false, integration := false, editorCont := true, popup := false
        keyFprBuffer := none, autoAddPrimary := false, defaultKeyFpr := none }
      { signMsg := false, signKeyFpr := none, keys := [], attachments := 0 }
      { buildResult := BuildResult.ok "mail body"
        encryptResult := Except.ok "ciphertext"
        encryptFilesResult := Except.ok () }).events =
      [Event.contErrorMessage "No valid encryption key for recipient address"
        (some "NO_KEY_FOR_RECIPIENT")] ∧
    (containerEncryptSession
      [("a@x.com", FprEntry.fprs ["F1"]), ("b@x.com", FprEntry.noKey)]
      ["a@x.com", "b@x.com"]
      { pgpMIME := false, integration := false, editorCont := true, popup := false
        keyFprBuffer := none, autoAddPrimary := false, defaultKeyFpr := none }
      { signMsg := false, signKeyFpr := none, keys := [], attachments := 0 }
      { buildResult := BuildResult.ok "mail body"
        encryptResult := Except.ok "ciphertext"
        encryptFilesResult := Except.ok () }).engineEncryptCalls = 0 :=
  C2_no_key_for_recipient _ _ _ _ _ (by decide)

/-- C5: restoring an armored draft whose decrypted content does not carry
exactly one valid signature emits decrypt-failed and surfaces no plaintext:
no set-text event is emitted for that content. -/
theorem C5_draft_restore_requires_valid_signature (data : String)
    (sigs : List Sig) (sanitized : String)
    (hsig : exactlyOneValidSig sigs = false) :
    decryptArmored ArmoredKind.pgpMessage (Except.ok (data, sigs)) sanitized true =
      [Event.decryptFailed] ∧
    ∀ t, Event.setText t ∉
      decryptArmored ArmoredKind.pgpMessage (Except.ok (data, sigs)) sanitized true := by
  unfold decryptArmored
  simp [hsig]

theorem C5_witness :
    decryptArmored ArmoredKind.pgpMessage
      (Except.ok ("draft body", ([] : List Sig))) "" true = [Event.decryptFailed] ∧
    ∀ t, Event.setText t ∉
      decryptArmored ArmoredKind.pgpMessage
        (Except.ok ("draft body", ([] : List Sig))) "" true :=
  C5_draft_restore_requires_valid_signature _ _ _ rfl

/-- C6 counterexample: in a compose session without an open editor popup (the
embedded container case), a PWD_DIALOG_CANCEL failure of the encrypt step IS
presented as an error: an error-message event is emitted, contradicting the
claim that the cancellation is never presented as an error message. -/
theorem C6_counterexample :
    Event.errorMessage "Operation was canceled" (some "PWD_DIALOG_CANCEL") ∈
      onEditorPlaintext
        { pgpMIME := true, integration := false, editorCont := true, popup := false
          keyFprBuffer := some ["F1"], autoAddPrimary := false, defaultKeyFpr := none }
        (signAndEncrypt
          { pgpMIME := true, integration := false, editorCont := true, popup := false
            keyFprBuffer := some ["F1"], autoAddPrimary := false, defaultKeyFpr := none }
          { signMsg := true, signKeyFpr := some "F2", keys := [], attachments := 0 }
          { buildResult := BuildResult.ok "mail body"
            encryptResult := Except.error
              { message := "Operation was canceled", code := some "PWD_DIALOG_CANCEL" }
            encryptFilesResult := Except.ok () }) := by
  decide

/-- C6 amended: in a compose session with an open editor popup, dismissing the
passphrase surface (a PWD_DIALOG_CANCEL failure of the encrypt step) is never
presented as an error: the handler only retracts the passphrase prompt, so the
session events are exactly the in-progress notification followed by
hide-pwd-dialog — no error-message and no encrypt-failed event. -/
theorem C6_amended_popup_cancel_silent (env : EditorEnv) (opts : EncryptOptions)
    (ext : ExternalResults) (d : String) (e : MvError)
    (hpopup : env.popup = true)
    (hsign : (opts.signMsg && (opts.signKeyFpr <|> env.defaultKeyFpr).isNone) = false)
    (hbuild : ext.buildResult = BuildResult.ok d)
    (henc : ext.encryptResult = Except.error e)
    (hcode : e.code = some "PWD_DIALOG_CANCEL") :
    onEditorPlaintext env (signAndEncrypt env opts ext) =
      [Event.encryptInProgress, Event.hidePwdDialog] := by
  unfold signAndEncrypt onEditorPlaintext
  simp [hsign, hbuild, henc, hcode, hpopup]

theorem C6_witness :
    onEditorPlaintext
      { pgpMIME := false, integration := false, editorCont := false, popup := true
        keyFprBuffer := none, autoAddPrimary := false, defaultKeyFpr := some "D1" }
      (signAndEncrypt
        { pgpMIME := false, integration := false, editorCont := false, popup := true
          keyFprBuffer := none, autoAddPrimary := false, defaultKeyFpr := some "D1" }
        { signMsg := true, signKeyFpr := none, keys := ["F1"], attachments := 0 }
        { buildResult := BuildResult.ok "mail body"
          encryptResult := Except.error
            { message := "Operation was canceled", code := some "PWD_DIALOG_CANCEL" }
          encryptFilesResult := Except.ok () }) =
      [Event.encryptInProgress, Event.hidePwdDialog] :=
  C6_amended_popup_cancel_silent _ _ _ "mail body" _ rfl rfl rfl rfl rfl

/-- C8: evaluation of the encrypt path at a payload-assembly failure.  First
conjunct (the bug): when `buildMail` throws (here with the quota error the
controller anticipates in its catch branch), the container port is notified,
but `data` is left `undefined`, the `data === null` guard does not match it,
and the cryptographic engine encrypt operation is still invoked — with an
undefined payload.  Second conjunct (the intended behaviour, which only covers
the null-return signal): when `buildMail` returns null, the operation aborts
with the MIME-build error before any engine call. -/
theorem C8_build_throw_reaches_engine :
    ((signAndEncrypt
        { pgpMIME := true, integration := false, editorCont := true, popup := false
          keyFprBuffer := some ["F1"], autoAddPrimary := false, defaultKeyFpr := none }
        { signMsg := false, signKeyFpr := none, keys := [], attachments := 0 }
        { buildResult := BuildResult.threw
            { message := "Mail content exceeds quota limit."
              code := some "ENCRYPT_QUOTA_SIZE" }
          encryptResult := Except.ok "ciphertext"
          encryptFilesResult := Except.ok () }).engineEncryptCalls = 1 ∧
      (signAndEncrypt
        { pgpMIME := true, integration := false, editorCont := true, popup := false
          keyFprBuffer := some ["F1"], autoAddPrimary := false, defaultKeyFpr := none }
        { signMsg := false, signKeyFpr := none, keys := [], attachments := 0 }
        { buildResult := BuildResult.threw
            { message := "Mail content exceeds quota limit."
              code := some "ENCRYPT_QUOTA_SIZE" }
          encryptResult := Except.ok "ciphertext"
          encryptFilesResult := Except.ok () }).engineDataArg = some DataVal.undef) ∧
    ((signAndEncrypt
        { pgpMIME := true, integration := false, editorCont := true, popup := false
          keyFprBuffer := some ["F1"], autoAddPrimary := false, defaultKeyFpr := none }
        { signMsg := false, signKeyFpr := none, keys := [], attachments := 0 }
        { buildResult := BuildResult.retNull
          encryptResult := Except.ok "ciphertext"
          encryptFilesResult := Except.ok () }).engineEncryptCalls = 0 ∧
      (signAndEncrypt
        { pgpMIME := true, integration := false, editorCont := true, popup := false
          keyFprBuffer := some ["F1"], autoAddPrimary := false, defaultKeyFpr := none }
        { signMsg := false, signKeyFpr := none, keys := [], attachments := 0 }
        { buildResult := BuildResult.retNull
          encryptResult := Except.ok "ciphertext"
          encryptFilesResult := Except.ok () }).result =
        Except.error { message := "MIME building failed.", code := none }) := by
  decide
